import Mathlib

/-!
Verification development for the trip-planning backend
(`src/backend/agents/iternerary_manager.py`, `src/backend/agents/chat_agent.py`,
`src/backend/app.py`, `src/app.py`).

The Python objects are shallowly embedded: dict-shaped records become
structures with `Option` fields, JSON values become the `Json` inductive,
the SQLAlchemy `TravelSuggestion` table becomes an ordered `List Suggestion`
(list order = `created_at` order, the table being append-only), and Python
truthiness is made explicit via `truthy` / `truthyStr` / `truthyOptJson`.
External collaborators (the Booking/Geoapify providers and the language
model) are passed in as function-valued parameters, per the spec they are
black boxes returning a normalized record or a failure.
-/

/-- A JSON value, as produced by `json.loads` and stored in the free-form
`preferences` map. Numbers are modelled as rationals. -/
inductive Json where
  | null
  | bool (b : Bool)
  | num (q : ℚ)
  | str (s : String)
  | arr (xs : List Json)
  | obj (kvs : List (String × Json))

/-- Python truthiness of a JSON value: `None`, `False`, `0`, `""`, `[]` and
`{}` are falsy, everything else is truthy. -/
def truthy : Json → Bool
  | .null => false
  | .bool b => b
  | .num q => q != 0
  | .str s => s != ""
  | .arr xs => !xs.isEmpty
  | .obj kvs => !kvs.isEmpty

/-- Truthiness of `dict.get(key)`: absent keys yield `None` (falsy). -/
def truthyOptJson : Option Json → Bool
  | none => false
  | some j => truthy j

/-- Truthiness of an optional string slot (`None` and `""` are falsy). -/
def truthyStr : Option String → Bool
  | none => false
  | some s => s != ""

/-- Model of `dict.get(k)` on a JSON object given as a key/value list, returning
`Json.null` for an absent key (Python returns `None`). -/
def jget (x : List (String × Json)) (k : String) : Json :=
  (x.lookup k).getD .null

/-- Does `hay` start with `needle`? (`str.startswith`). -/
def listStarts : List Char → List Char → Bool
  | [], _ => true
  | _ :: _, [] => false
  | a :: as, b :: bs => a == b && listStarts as bs

/-- Does `hay` end with `needle`? (`str.endswith`). -/
def listEnds (needle hay : List Char) : Bool :=
  listStarts needle.reverse hay.reverse

/-- Python's substring test `needle in hay`. -/
def listHas (needle : List Char) : List Char → Bool
  | [] => needle.isEmpty
  | c :: rest => listStarts needle (c :: rest) || listHas needle rest

/-- Model of `str.upper()` as a character list (city names/codes are ASCII here). -/
def upperStr (s : String) : List Char :=
  s.toList.map Char.toUpper

/- ────────────────────────── Data model ────────────────────────── -/

/-- The type-dependent `location` JSON column of a `TravelSuggestion`:
hotel/shop rows use address-like fields, flight rows use
`origin`/`destination` codes. Modelled as one structure with all fields
optional. -/
structure LocationMap where
  address : Option String := none
  origin : Option String := none
  destination : Option String := none
  lat : Option ℚ := none
  lon : Option ℚ := none
  phone : Option String := none
  opening_hours : Option String := none
  city : Option String := none
  postcode : Option String := none
  street : Option String := none
deriving DecidableEq

/-- A row of the `TravelSuggestion` table (`database.py`).  The table is
append-only; a `List Suggestion` in creation order stands for the rows of
one database, and queries filter it. -/
structure Suggestion where
  id : Nat
  conversation_id : Nat
  type : String
  title : Option String := none
  description : Option String := none
  price : Option ℚ := none
  rating : Option ℚ := none
  image_url : Option String := none
  booking_url : Option String := none
  location : LocationMap := {}
deriving DecidableEq

/-- The dict built by `ItineraryManager._format_suggestion`
(iternerary_manager.py lines 67-77): `price` is
`float(s.price) if s.price is not None else -10`. -/
structure FormattedSuggestion where
  id : Nat
  type : String
  title : Option String
  description : Option String
  price : ℚ
  booking_url : Option String
  location : LocationMap
deriving DecidableEq

/-- Model of `ItineraryManager._format_suggestion` (lines 67-77). -/
def format_suggestion (s : Suggestion) : FormattedSuggestion :=
  { id := s.id
    type := s.type
    title := s.title
    description := s.description
    price := match s.price with
      | some p => p
      | none => -10
    booking_url := s.booking_url
    location := s.location }

/-- The slots `load_from_db` reads from `conversation.preferences`
(lines 40-41); the manager's classification treats them as strings. -/
structure MgrPrefs where
  destination : Option String := none
  origin : Option String := none
deriving DecidableEq

/-- The itinerary attributes of an `ItineraryManager` instance
(lines 20-24); the free-form `activities` map is never touched by
`load_from_db` and is omitted. -/
structure ItinState where
  journey_to : Option FormattedSuggestion := none
  journey_from : Option FormattedSuggestion := none
  stays : List FormattedSuggestion := []
  shops : List FormattedSuggestion := []
deriving DecidableEq

/-- The test `flight_origin in trip_origin.upper() and flight_dest in
trip_destination.upper()` (lines 56-57): the stored codes (uppercased,
defaulting to `'N/A'`) are checked for containment in the slot strings. -/
def flightTo (tripOrigin tripDestination : String) (s : Suggestion) : Bool :=
  listHas (upperStr (s.location.origin.getD "N/A")) (upperStr tripOrigin) &&
  listHas (upperStr (s.location.destination.getD "N/A")) (upperStr tripDestination)

/-- The reverse containment (lines 60-61). -/
def flightFrom (tripOrigin tripDestination : String) (s : Suggestion) : Bool :=
  listHas (upperStr (s.location.origin.getD "N/A")) (upperStr tripDestination) &&
  listHas (upperStr (s.location.destination.getD "N/A")) (upperStr tripOrigin)

/-- One iteration of the `for s in suggestions` loop of
`ItineraryManager.load_from_db` (lines 47-65). -/
def loadStep (p : MgrPrefs) (st : ItinState) (s : Suggestion) : ItinState :=
  if s.type == "hotel" then
    { st with stays := st.stays ++ [format_suggestion s] }
  else if s.type == "shop" then
    { st with shops := st.shops ++ [format_suggestion s] }
  else if s.type == "flight" then
    if truthyStr p.origin && truthyStr p.destination &&
       flightTo (p.origin.getD "") (p.destination.getD "") s then
      { st with journey_to := some (format_suggestion s) }
    else if truthyStr p.origin && truthyStr p.destination &&
            flightFrom (p.origin.getD "") (p.destination.getD "") s then
      { st with journey_from := some (format_suggestion s) }
    else if st.journey_to == none then
      { st with journey_to := some (format_suggestion s) }
    else st
  else st

/-- Model of `ItineraryManager.load_from_db` (lines 29-65).  It resets `stays`,
`journey_to` and `journey_from` (lines 36-38) — but not `shops` — and then
folds the classification loop over the conversation's suggestion rows in
`created_at` order. -/
def load_from_db (p : MgrPrefs) (cid : Nat) (db : List Suggestion)
    (st0 : ItinState) : ItinState :=
  let st := { st0 with stays := [], journey_to := none, journey_from := none }
  (db.filter (fun s => s.conversation_id == cid)).foldl (loadStep p) st

/- ─────────────────── Persistence (ItineraryManager) ─────────────────── -/

/-- Python's `a or b` on two optional strings (first truthy value wins),
as in `shop_data.get('full_address') or shop_data.get('address_line2')`. -/
def orTruthy (a b : Option String) : Option String :=
  match a with
  | some s => if s != "" then some s else b
  | none => b

/-- A point-of-interest record returned by `search_shops`/`search_leisure`
(a Geoapify feature dict, or an error dict carrying an `error` key). -/
structure ShopData where
  error : Option Json := none
  name : Option String := none
  full_address : Option String := none
  address_line2 : Option String := none
  lat : Option ℚ := none
  lon : Option ℚ := none
  phone : Option String := none
  opening_hours : Option String := none
  city : Option String := none
  postcode : Option String := none
  street : Option String := none
  website : Option String := none

/-- The dedup filter of `_save_shop_to_db` (lines 217-221): existing rows of
this conversation with `type='shop'` and the same title. -/
def shopPred (cid : Nat) (n : String) (s : Suggestion) : Bool :=
  s.conversation_id == cid && s.type == "shop" && s.title == some n

/-- Model of `ItineraryManager._save_shop_to_db` (lines 205-253).  `none` stands for a
falsy `shop_data`; an `error` key, a missing/empty name, or an existing row
with the same title each cause an early `return` with nothing persisted.
The database assigns the row id; `db.length` stands for it. -/
def save_shop_to_db (cid : Nat) (db : List Suggestion) (sd : Option ShopData) :
    List Suggestion :=
  match sd with
  | none => db
  | some d =>
    if truthyOptJson d.error then db
    else
      match d.name with
      | none => db
      | some n =>
        if n == "" then db
        else if db.any (shopPred cid n) then db
        else db ++ [{ id := db.length
                      conversation_id := cid
                      type := "shop"
                      title := some n
                      description := orTruthy d.full_address d.address_line2
                      price := none
                      rating := none
                      image_url := none
                      booking_url := d.website
                      location := { address := d.full_address
                                    lat := d.lat
                                    lon := d.lon
                                    phone := d.phone
                                    opening_hours := d.opening_hours
                                    city := d.city
                                    postcode := d.postcode
                                    street := d.street } }]

/-- Number of stored suggestions of type `shop` with title `n` for
conversation `cid`. -/
def countShop (cid : Nat) (n : String) (db : List Suggestion) : Nat :=
  (db.filter (shopPred cid n)).length

/-- A hotel record as produced by `search_hotels` (booking_agent.py). -/
structure HotelData where
  hotel_name : Option String := none
  hotel_description : Option String := none
  price : Option ℚ := none
  rating : Option ℚ := none
  room_photo_url : Option String := none
  hotel_photo_url : List String := []
  booking_url : Option String := none
  destination : Option String := none
deriving DecidableEq

/-- Model of `ItineraryManager._save_hotel_to_db` (lines 157-183): the 0-10 rating is
halved to a 0-5 scale (non-positive ratings map to 0), the room-level photo
is preferred with the first hotel-level photo as fallback, and the row is
appended with no deduplication. -/
def save_hotel_to_db (cid : Nat) (db : List Suggestion) (h : HotelData) :
    List Suggestion :=
  let rating10 := h.rating.getD 0
  let rating5 : ℚ := if rating10 > 0 then rating10 / 2 else 0
  let img0 := h.room_photo_url.getD "N/A"
  let img := if img0 == "N/A" || img0 == "" then
      match h.hotel_photo_url with
      | [] => img0
      | p :: _ => p
    else img0
  db ++ [{ id := db.length
           conversation_id := cid
           type := "hotel"
           title := h.hotel_name
           description := h.hotel_description
           price := h.price
           rating := some rating5
           image_url := some img
           booking_url := h.booking_url
           location := { address := h.destination } }]

/-- A flight record as produced by `search_flights` (flight_agent.py). -/
structure FlightData where
  title : Option String := none
  description : Option String := none
  price : Option ℚ := none
  image_url : Option String := none
  booking_url : Option String := none
  origin_code : Option String := none
  destination_code : Option String := none
deriving DecidableEq

/-- Model of `ItineraryManager._save_flight_to_db` (lines 185-202). -/
def save_flight_to_db (cid : Nat) (db : List Suggestion) (f : FlightData) :
    List Suggestion :=
  db ++ [{ id := db.length
           conversation_id := cid
           type := "flight"
           title := f.title
           description := f.description
           price := f.price
           rating := none
           image_url := f.image_url
           booking_url := f.booking_url
           location := { origin := f.origin_code
                         destination := f.destination_code } }]

/-- Python attribute lookup of `_save_leisure_to_db` on `ItineraryManager`:
the class body (iternerary_manager.py) defines only `_save_hotel_to_db`,
`_save_flight_to_db` and `_save_shop_to_db`, so the lookup finds nothing and
`self.IteneraryManager._save_leisure_to_db(...)` (chat_agent.py lines 181
and 271) raises `AttributeError`. -/
def save_leisure_lookup :
    Option (Nat → List Suggestion → Option ShopData → List Suggestion) :=
  none

/-- The message of the `AttributeError` raised by that lookup. -/
def attributeErrorMsg : String :=
  "AttributeError: ItineraryManager has no attribute _save_leisure_to_db"

/- ─────────────── Suggestions listing endpoint (`get_suggestions`) ──────────── -/

/-- One entry of the JSON array returned by `GET /api/suggestions/<id>`
(src/backend/app.py lines 860-874, identical in src/app.py lines 487-501). -/
structure ApiSuggestion where
  id : Nat
  type : String
  title : Option String
  description : Option String
  price : Option ℚ
  rating : Option ℚ
  image_url : Option String
  booking_url : Option String
  location : LocationMap
deriving DecidableEq

/-- The per-row conversion of `get_suggestions`: `price` is
`float(s.price) if s.price else None` and `rating` likewise — a truthiness
test, so both `NULL` and `0` map to `null`. -/
def render_suggestion (s : Suggestion) : ApiSuggestion :=
  { id := s.id
    type := s.type
    title := s.title
    description := s.description
    price := match s.price with
      | some p => if p == 0 then none else some p
      | none => none
    rating := match s.rating with
      | some r => if r == 0 then none else some r
      | none => none
    image_url := s.image_url
    booking_url := s.booking_url
    location := s.location }

/- ────────────── Slot store and stage selection (`travel_chat`) ────────────── -/

/-- The slot keys of `conversation.preferences` read and written by
`travel_chat` (src/backend/app.py lines 385-397 and 791-827).  Values are
raw JSON from the extraction payload; `none` means the key is absent. -/
structure Prefs where
  origin : Option Json := none
  destination : Option Json := none
  number_of_travelers : Option Json := none
  weather_preference : Option Json := none
  activities : Option Json := none
  budget : Option Json := none
  budget_allocation : Option Json := none
  arrival_date : Option Json := none
  departure_date : Option Json := none
  date_flexibility : Option Json := none
  confirmed : Option Json := none

/-- The outcome of `normalize_date` (src/backend/app.py lines 71-80):
either `datetime.strptime(date_str, '%Y-%m-%d')` succeeds, or any failure
falls back to the wall-clock date plus 30 days.  The fallback value depends
on real time and is modelled by an opaque constructor. -/
inductive DateV where
  | parsed (y m d : Nat)
  | fallbackDate
deriving DecidableEq

/-- Days per month, February depending on the Gregorian leap rule
(the validity check `datetime.strptime` performs when building the date). -/
def daysInMonth (y m : Nat) : Nat :=
  if m == 2 then
    (if y % 4 == 0 && (y % 100 != 0 || y % 400 == 0) then 29 else 28)
  else if m == 4 || m == 6 || m == 9 || m == 11 then 30
  else 31

/-- Model of `datetime.strptime(s, '%Y-%m-%d')`: four year digits, one or two month
and day digits, separated by single dashes, and a calendar-valid date. -/
def parseYMD (s : String) : Option (Nat × Nat × Nat) :=
  match s.splitOn "-" with
  | [ys, ms, ds] =>
    if ys.toList.length == 4 && ys.toList.all Char.isDigit &&
       (ms.toList.length == 1 || ms.toList.length == 2) && ms.toList.all Char.isDigit &&
       (ds.toList.length == 1 || ds.toList.length == 2) && ds.toList.all Char.isDigit then
      let y := ys.toNat!
      let m := ms.toNat!
      let d := ds.toNat!
      if 1 ≤ m && m ≤ 12 && 1 ≤ d && d ≤ daysInMonth y m then some (y, m, d)
      else none
    else none
  | _ => none

/-- Model of `normalize_date` applied to a raw extracted value: non-string input makes
`strptime` raise, which the bare `except` also turns into the fallback. -/
def normalize_date (j : Json) : DateV :=
  match j with
  | .str s =>
    match parseYMD s with
    | some (y, m, d) => .parsed y m d
    | none => .fallbackDate
  | _ => .fallbackDate

/-- A `Conversation` row as used by `travel_chat`: the preferences map plus
the denormalized `destination`, `budget` and `start_date` columns. -/
structure Conv where
  prefs : Prefs := {}
  destination : Option Json := none
  budget : Option Json := none
  start_date : Option DateV := none

/-- Lines 791-792: `if extracted_data.get('origin'): prefs['origin'] = ...`. -/
def stepOrigin (x : List (String × Json)) (c : Conv) : Conv :=
  if truthy (jget x "origin") then
    { c with prefs.origin := some (jget x "origin") }
  else c

/-- Lines 794-796: a truthy extracted destination updates both the
preference and the denormalized `conversation.destination`. -/
def stepDestination (x : List (String × Json)) (c : Conv) : Conv :=
  if truthy (jget x "destination") then
    { c with destination := some (jget x "destination"),
             prefs.destination := some (jget x "destination") }
  else c

/-- Lines 798-799. -/
def stepTravelers (x : List (String × Json)) (c : Conv) : Conv :=
  if truthy (jget x "number_of_travelers") then
    { c with prefs.number_of_travelers := some (jget x "number_of_travelers") }
  else c

/-- Lines 801-802. -/
def stepWeather (x : List (String × Json)) (c : Conv) : Conv :=
  if truthy (jget x "weather_preference") then
    { c with prefs.weather_preference := some (jget x "weather_preference") }
  else c

/-- Lines 804-805. -/
def stepActivities (x : List (String × Json)) (c : Conv) : Conv :=
  if truthy (jget x "activities") then
    { c with prefs.activities := some (jget x "activities") }
  else c

/-- Lines 807-809: a truthy extracted budget updates both the preference and
the denormalized `conversation.budget`. -/
def stepBudget (x : List (String × Json)) (c : Conv) : Conv :=
  if truthy (jget x "budget") then
    { c with budget := some (jget x "budget"),
             prefs.budget := some (jget x "budget") }
  else c

/-- Lines 811-812. -/
def stepAllocation (x : List (String × Json)) (c : Conv) : Conv :=
  if truthy (jget x "budget_allocation") then
    { c with prefs.budget_allocation := some (jget x "budget_allocation") }
  else c

/-- Lines 814-816: a truthy arrival date updates the preference and sets
`conversation.start_date = normalize_date(...)`. -/
def stepArrival (x : List (String × Json)) (c : Conv) : Conv :=
  if truthy (jget x "arrival_date") then
    { c with prefs.arrival_date := some (jget x "arrival_date"),
             start_date := some (normalize_date (jget x "arrival_date")) }
  else c

/-- Lines 818-819. -/
def stepDeparture (x : List (String × Json)) (c : Conv) : Conv :=
  if truthy (jget x "departure_date") then
    { c with prefs.departure_date := some (jget x "departure_date") }
  else c

/-- Lines 821-822. -/
def stepFlexibility (x : List (String × Json)) (c : Conv) : Conv :=
  if truthy (jget x "date_flexibility") then
    { c with prefs.date_flexibility := some (jget x "date_flexibility") }
  else c

/-- Lines 824-825. -/
def stepConfirmed (x : List (String × Json)) (c : Conv) : Conv :=
  if truthy (jget x "confirmed") then
    { c with prefs.confirmed := some (jget x "confirmed") }
  else c

/-- The slot-merge block of `travel_chat` (lines 791-827): the eleven
conditional updates executed in source order over the extracted payload. -/
def applyExtracted (x : List (String × Json)) (c : Conv) : Conv :=
  stepConfirmed x (stepFlexibility x (stepDeparture x (stepArrival x
    (stepAllocation x (stepBudget x (stepActivities x (stepWeather x
      (stepTravelers x (stepDestination x (stepOrigin x c))))))))))

/-- Applying a whole parsed payload: Python runs `extracted_data.get(...)`,
which raises (failing the request) when the parsed payload is not a dict;
`none` models that raise. -/
def applyPayload (j : Json) (c : Conv) : Option Conv :=
  match j with
  | .obj kvs => some (applyExtracted kvs c)
  | _ => none

/-- The named dialogue stages, one per `STAGE n` prompt branch of
`travel_chat` (lines 457-580), using the spec's names: branch `STAGE 1` is
`NEED_DESTINATION`, ..., `STAGE 10` is `READY`. -/
inductive Stage where
  | NEED_DESTINATION
  | NEED_ORIGIN
  | NEED_TRAVELERS
  | NEED_ACTIVITIES
  | NEED_BUDGET
  | NEED_BUDGET_ALLOCATION
  | NEED_DATES
  | NEED_FLEXIBILITY
  | NEED_CONFIRMATION
  | READY
deriving DecidableEq

/-- The `if not has_destination: ... elif ... else` chain of `travel_chat`
(lines 457-580) over the slot-presence booleans, in source order. -/
def stageChain (dest origin travelers activities budget alloc dates flex
    confirmed : Bool) : Stage :=
  if !dest then .NEED_DESTINATION
  else if !origin then .NEED_ORIGIN
  else if !travelers then .NEED_TRAVELERS
  else if !activities then .NEED_ACTIVITIES
  else if !budget then .NEED_BUDGET
  else if !alloc then .NEED_BUDGET_ALLOCATION
  else if !dates then .NEED_DATES
  else if !flex then .NEED_FLEXIBILITY
  else if !confirmed then .NEED_CONFIRMATION
  else .READY

/-- Presence test `has_destination = conversation.destination or prefs.get('destination')`
(line 387). -/
def hasDestination (c : Conv) : Bool :=
  truthyOptJson c.destination || truthyOptJson c.prefs.destination

/-- Presence test `has_origin = prefs.get('origin')` (line 386). -/
def hasOrigin (c : Conv) : Bool := truthyOptJson c.prefs.origin

/-- Line 388. -/
def hasTravelers (c : Conv) : Bool := truthyOptJson c.prefs.number_of_travelers

/-- Line 390. -/
def hasActivities (c : Conv) : Bool := truthyOptJson c.prefs.activities

/-- Presence test `has_budget = conversation.budget or prefs.get('budget')` (line 391). -/
def hasBudget (c : Conv) : Bool :=
  truthyOptJson c.budget || truthyOptJson c.prefs.budget

/-- Line 392. -/
def hasAllocation (c : Conv) : Bool := truthyOptJson c.prefs.budget_allocation

/-- Presence test `has_dates = has_arrival_date and has_departure_date` (lines 393-395). -/
def hasDates (c : Conv) : Bool :=
  truthyOptJson c.prefs.arrival_date && truthyOptJson c.prefs.departure_date

/-- Line 396. -/
def hasFlexibility (c : Conv) : Bool := truthyOptJson c.prefs.date_flexibility

/-- Line 397. -/
def hasConfirmed (c : Conv) : Bool := truthyOptJson c.prefs.confirmed

/-- The stage `travel_chat` selects for a conversation: the presence
booleans of lines 385-397 fed through the prompt-branch chain. -/
def travelChatStage (c : Conv) : Stage :=
  stageChain (hasDestination c) (hasOrigin c) (hasTravelers c)
    (hasActivities c) (hasBudget c) (hasAllocation c) (hasDates c)
    (hasFlexibility c) (hasConfirmed c)

/-- The spec's reading of stage selection: walk the checklist left-to-right
and return the stage of the first missing slot, `READY` if none is. -/
def firstMissing : List (Bool × Stage) → Stage
  | [] => .READY
  | (present, st) :: rest => if present then firstMissing rest else st

/-- The checklist in the spec's fixed order: destination, origin, travelers,
activities, budget, budget_allocation, dates, flexibility, confirmation. -/
def slotChecklist (c : Conv) : List (Bool × Stage) :=
  [(hasDestination c, .NEED_DESTINATION),
   (hasOrigin c, .NEED_ORIGIN),
   (hasTravelers c, .NEED_TRAVELERS),
   (hasActivities c, .NEED_ACTIVITIES),
   (hasBudget c, .NEED_BUDGET),
   (hasAllocation c, .NEED_BUDGET_ALLOCATION),
   (hasDates c, .NEED_DATES),
   (hasFlexibility c, .NEED_FLEXIBILITY),
   (hasConfirmed c, .NEED_CONFIRMATION)]

/- ───────────── Sentinel payload extraction (`travel_chat` 766-784) ───────────── -/

/-- JSON whitespace / `str.strip` whitespace characters (ASCII). -/
def isPyWs (c : Char) : Bool :=
  c == ' ' || c == '\t' || c == '\n' || c == '\r' || c == '\x0B' || c == '\x0C'

/-- Drop leading whitespace. -/
def skipWs (cs : List Char) : List Char := cs.dropWhile isPyWs

/-- Model of `str.strip()`: drop whitespace at both ends. -/
def pyStrip (cs : List Char) : List Char :=
  ((cs.dropWhile isPyWs).reverse.dropWhile isPyWs).reverse

/-- Value of a digit run. -/
def digitsToNat (ds : List Char) : Nat :=
  ds.foldl (fun a c => a * 10 + (c.toNat - 48)) 0

/-- Value of a hexadecimal digit, for `\uXXXX` escapes. -/
def hexVal (c : Char) : Option Nat :=
  if '0' ≤ c && c ≤ '9' then some (c.toNat - 48)
  else if 'a' ≤ c && c ≤ 'f' then some (c.toNat - 87)
  else if 'A' ≤ c && c ≤ 'F' then some (c.toNat - 55)
  else none

/-- Body of a JSON string after the opening quote: characters up to the
closing quote, with the standard escapes. -/
def parseStringBody : List Char → List Char → Option (String × List Char)
  | [], _ => none
  | '"' :: rest, acc => some (String.mk acc.reverse, rest)
  | '\\' :: rest, acc =>
    match rest with
    | [] => none
    | e :: rest2 =>
      if e == '"' || e == '\\' || e == '/' then parseStringBody rest2 (e :: acc)
      else if e == 'b' then parseStringBody rest2 ('\x08' :: acc)
      else if e == 'f' then parseStringBody rest2 ('\x0C' :: acc)
      else if e == 'n' then parseStringBody rest2 ('\n' :: acc)
      else if e == 'r' then parseStringBody rest2 ('\r' :: acc)
      else if e == 't' then parseStringBody rest2 ('\t' :: acc)
      else if e == 'u' then
        match rest2 with
        | a :: b :: c :: d :: rest3 =>
          match hexVal a, hexVal b, hexVal c, hexVal d with
          | some va, some vb, some vc, some vd =>
            parseStringBody rest3
              (Char.ofNat (((va * 16 + vb) * 16 + vc) * 16 + vd) :: acc)
          | _, _, _, _ => none
        | _ => none
      else none
  | ch :: rest, acc => parseStringBody rest (ch :: acc)

/-- A JSON number: optional sign, integer part without leading zeros,
optional fraction and exponent. -/
def parseNum (cs : List Char) : Option (Json × List Char) :=
  let signed := match cs with
    | '-' :: r => ((-1 : ℚ), r)
    | _ => ((1 : ℚ), cs)
  let sign := signed.1
  let cs1 := signed.2
  let intDs := cs1.takeWhile Char.isDigit
  let rest1 := cs1.dropWhile Char.isDigit
  if intDs.isEmpty then none
  else if 1 < intDs.length && intDs.head? == some '0' then none
  else
    let intPart : ℚ := digitsToNat intDs
    let fracStep : Option (ℚ × List Char) :=
      match rest1 with
      | '.' :: r =>
        let fds := r.takeWhile Char.isDigit
        if fds.isEmpty then none
        else some ((digitsToNat fds : ℚ) / ((10 : ℚ) ^ fds.length),
                   r.dropWhile Char.isDigit)
      | _ => some (0, rest1)
    match fracStep with
    | none => none
    | some (fracPart, rest2) =>
      let expStep : Option (ℚ × List Char) :=
        match rest2 with
        | e :: r =>
          if e == 'e' || e == 'E' then
            let esigned := match r with
              | '+' :: rr => (true, rr)
              | '-' :: rr => (false, rr)
              | _ => (true, r)
            let eds := esigned.2.takeWhile Char.isDigit
            if eds.isEmpty then none
            else
              let p : ℚ := (10 : ℚ) ^ digitsToNat eds
              some (if esigned.1 then p else 1 / p,
                    esigned.2.dropWhile Char.isDigit)
          else some (1, rest2)
        | [] => some (1, rest2)
      match expStep with
      | none => none
      | some (expFactor, rest3) =>
        some (.num (sign * (intPart + fracPart) * expFactor), rest3)

mutual

/-- Recursive-descent JSON value parser with a fuel bound (`json.loads`;
the non-standard `NaN`/`Infinity` constants are not supported). -/
def parseVal : Nat → List Char → Option (Json × List Char)
  | 0, _ => none
  | fuel + 1, cs =>
    match skipWs cs with
    | [] => none
    | c :: rest =>
      if c == 'n' then
        if listStarts "ull".toList rest then some (.null, rest.drop 3) else none
      else if c == 't' then
        if listStarts "rue".toList rest then some (.bool true, rest.drop 3) else none
      else if c == 'f' then
        if listStarts "alse".toList rest then some (.bool false, rest.drop 4) else none
      else if c == '"' then
        match parseStringBody rest [] with
        | some (s, r) => some (.str s, r)
        | none => none
      else if c == '[' then
        match skipWs rest with
        | ']' :: r => some (.arr [], r)
        | cs2 => parseArrItems fuel cs2 []
      else if c == '\x7b' then
        match skipWs rest with
        | '\x7d' :: r => some (.obj [], r)
        | cs2 => parseObjItems fuel cs2 []
      else if c == '-' || c.isDigit then parseNum (c :: rest)
      else none

/-- Comma-separated array elements up to `]`. -/
def parseArrItems : Nat → List Char → List Json → Option (Json × List Char)
  | 0, _, _ => none
  | fuel + 1, cs, acc =>
    match parseVal fuel cs with
    | none => none
    | some (v, r) =>
      match skipWs r with
      | ',' :: r2 => parseArrItems fuel r2 (acc ++ [v])
      | ']' :: r2 => some (.arr (acc ++ [v]), r2)
      | _ => none

/-- Comma-separated `"key": value` members up to the closing brace. -/
def parseObjItems : Nat → List Char → List (String × Json) →
    Option (Json × List Char)
  | 0, _, _ => none
  | fuel + 1, cs, acc =>
    match skipWs cs with
    | '"' :: r =>
      match parseStringBody r [] with
      | none => none
      | some (k, r2) =>
        match skipWs r2 with
        | ':' :: r3 =>
          match parseVal fuel r3 with
          | none => none
          | some (v, r4) =>
            match skipWs r4 with
            | ',' :: r5 => parseObjItems fuel r5 (acc ++ [(k, v)])
            | '\x7d' :: r5 => some (.obj (acc ++ [(k, v)]), r5)
            | _ => none
        | _ => none
    | _ => none

end

/-- Model of `json.loads`: one JSON document with nothing but whitespace after it. -/
def jsonParse (s : String) : Option Json :=
  let cs := s.toList
  match parseVal (2 * cs.length + 2) cs with
  | some (v, r) => if (skipWs r).isEmpty then some v else none
  | none => none

/-- The fixed sentinel pair delimiting the extraction payload. -/
def sentinelStart : List Char := "|||EXTRACT|||".toList

/-- Closing sentinel. -/
def sentinelEnd : List Char := "|||END|||".toList

/-- Index of the first occurrence of `needle`. -/
def findIdx (needle : List Char) : List Char → Option Nat
  | [] => if needle.isEmpty then some 0 else none
  | c :: rest =>
    if listStarts needle (c :: rest) then some 0
    else (findIdx needle rest).map (· + 1)

/-- The first `re.search` match of the non-greedy sentinel pattern
(DOTALL): text before the opening sentinel, the payload (group 1), and the
text after the closing sentinel. -/
def splitBlock (cs : List Char) : Option (List Char × List Char × List Char) :=
  match findIdx sentinelStart cs with
  | none => none
  | some i =>
    let afterStart := cs.drop (i + sentinelStart.length)
    match findIdx sentinelEnd afterStart with
    | none => none
    | some j =>
      some (cs.take i, afterStart.take j, afterStart.drop (j + sentinelEnd.length))

/-- Model of `re.sub` of the sentinel pattern replacing with the empty string: remove every non-overlapping
block left to right (fuel-bounded recursion on the remaining text). -/
def removeBlocks : Nat → List Char → List Char
  | 0, cs => cs
  | fuel + 1, cs =>
    match splitBlock cs with
    | none => cs
    | some (pre, _, post) => pre ++ removeBlocks fuel post

/-- Lines 771-777: `group(1).strip()`, the removal of the optional markdown
code fences, and the final `strip()` before `json.loads`. -/
def prepPayload (inner : List Char) : String :=
  let js := pyStrip inner
  let js := if listStarts "```json".toList js then js.drop 7 else js
  let js := if listEnds "```".toList js then js.take (js.length - 3) else js
  String.mk (pyStrip js)

/-- Lines 766-784 of `travel_chat`: locate the sentinel block and parse it.
On success the payload becomes the extracted data and every sentinel block
is stripped from the reply (then `.strip()`); when there is no block, or
`json.loads` fails, `extracted_data` stays `{}` — and, in the failure case,
the reply keeps the sentinel block, because the `re.sub` stripping happens
inside the `try` only after a successful parse. -/
def extractAndStrip (ai : String) : String × Json :=
  match splitBlock ai.toList with
  | none => (ai, .obj [])
  | some (_, inner, _) =>
    match jsonParse (prepPayload inner) with
    | some v => (String.mk (pyStrip (removeBlocks ai.toList.length ai.toList)), v)
    | none => (ai, .obj [])

/- ───────────── Tool dispatch (`ChatService.process_message` 193-296) ───────────── -/

/-- The argument dict of one requested tool invocation; each handler reads
its own keys with `tool_args.get(...)`. -/
structure ToolArgs where
  city : Option String := none
  arrival : Option String := none
  departure : Option String := none
  price_max : Option ℚ := none
  adults : Option ℚ := none
  origin_city : Option String := none
  destination_city : Option String := none
  departure_date : Option String := none
  categories : Option String := none
  destination : Option String := none
  activities : Option String := none
deriving DecidableEq

/-- One entry of the model turn's function-call list. -/
structure ToolCall where
  name : String
  args : ToolArgs := {}
deriving DecidableEq

/-- The shape `search_hotels` returns: a single record or a top-N list (chat_agent.py
line 219 normalizes both shapes). -/
inductive HotelsRet where
  | one (h : HotelData)
  | many (hs : List HotelData)
deriving DecidableEq

/-- The external tool providers (spec §4.3: black boxes returning a
normalized record or an explicit failure).  `flights` may raise, which the
handler's `try` captures; `activityRec` stands for the separate model call
of `_get_activity_itinerary` composed with the maps-link enhancement of
`agents.utils` (a module not part of the reviewed sources). -/
structure Providers where
  hotels : ToolArgs → Option HotelsRet
  flights : ToolArgs → Except String (Option FlightData)
  shops : ToolArgs → Option ShopData
  leisure : ToolArgs → Option ShopData
  activityRec : ToolArgs → String

/-- The value held by the loop-local `tool_result` variable: each branch's
structured result.  There is no constructor carrying an `unknown_tool` tag
because no branch of the source builds one. -/
inductive ToolRes where
  | hotels (hs : List HotelData)
  | hotelsEmpty
  | flight (f : Option FlightData)
  | flightFailure (msg : String)
  | activityOk (dest : Option String)
  | poi (p : Option ShopData)

/-- The strings appearing in the JSON serialization of a tool result (the
dict keys/values the model would see), used to check for an
`unknown_tool` tag. -/
def resStrings : ToolRes → List String
  | .hotels hs =>
    hs.flatMap (fun h =>
      h.hotel_name.toList ++ h.hotel_description.toList ++
      h.room_photo_url.toList ++ h.hotel_photo_url ++
      h.booking_url.toList ++ h.destination.toList)
  | .hotelsEmpty => ["status", "error", "No hotels found matching criteria."]
  | .flight f =>
    (f.map (fun fd =>
      fd.title.toList ++ fd.description.toList ++ fd.image_url.toList ++
      fd.booking_url.toList ++ fd.origin_code.toList ++
      fd.destination_code.toList)).getD []
  | .flightFailure m => ["error", m]
  | .activityOk d =>
    ["status", "success",
     "Activity itinerary for " ++ d.getD "None" ++
       " was generated and sent to the user."]
  | .poi p =>
    (p.map (fun sd =>
      sd.name.toList ++ sd.full_address.toList ++ sd.address_line2.toList ++
      sd.phone.toList ++ sd.opening_hours.toList ++ sd.city.toList ++
      sd.postcode.toList ++ sd.street.toList ++ sd.website.toList)).getD []

/-- Is the result tagged `unknown_tool` anywhere (as a key, value or inside
a message)? -/
def mentionsUnknownTool (r : ToolRes) : Bool :=
  (resStrings r).any (fun s => listHas "unknown_tool".toList s.toList)

/-- The mutable state threaded through the dispatch loop: the conversation's
preference map, the suggestion rows, the messages appended along the way,
the loop variable `tool_result`, and the accumulated
`function_response_parts`. -/
structure DispatchSt where
  prefs : Prefs := {}
  db : List Suggestion := []
  msgs : List String := []
  tool_result : ToolRes := .poi none
  parts : List (String × ToolRes) := []

/-- Line 276: append this entry's function response (the branch also leaves
the new value in `tool_result` for the next iteration). -/
def pushPart (st : DispatchSt) (name : String) (r : ToolRes) : DispatchSt :=
  { st with tool_result := r, parts := st.parts ++ [(name, r)] }

/-- The body of the `for function_call in function_calls` loop (chat_agent.py
lines 199-284) for one entry.  The `if/elif` chain recognizes five names;
any other name falls through every branch, so the stale `tool_result` of the
previous iteration is appended unchanged.  A `search_leisure` entry calls
the missing `_save_leisure_to_db`, raising `AttributeError` (modelled as
`Except.error`), which aborts `process_message`. -/
def runCall (P : Providers) (cid : Nat) (c : ToolCall) (st : DispatchSt) :
    Except String DispatchSt :=
  if c.name == "search_hotels" then
    -- line 207: the destination preference is set before the provider call
    let prefs2 := { st.prefs with
      destination := some (match c.args.city with
        | some s => Json.str s
        | none => Json.null) }
    match P.hotels c.args with
    | none => .ok (pushPart { st with prefs := prefs2 } c.name .hotelsEmpty)
    | some r =>
      match (match r with | .one h => [h] | .many l => l) with
      | [] => .ok (pushPart { st with prefs := prefs2 } c.name .hotelsEmpty)
      | h :: hs =>
        .ok (pushPart
          { st with prefs := prefs2,
                    db := (h :: hs).foldl (save_hotel_to_db cid) st.db }
          c.name (.hotels (h :: hs)))
  else if c.name == "search_flights" then
    match P.flights c.args with
    | .error e => .ok (pushPart st c.name (.flightFailure e))
    | .ok (some fd) =>
      .ok (pushPart { st with db := save_flight_to_db cid st.db fd }
        c.name (.flight (some fd)))
    | .ok none => .ok (pushPart st c.name (.flight none))
  else if c.name == "get_activity_recommendations" then
    -- `_get_activity_itinerary` stores the text as a message (line 328) and
    -- line 250 stores it a second time
    let text := P.activityRec c.args
    .ok (pushPart { st with msgs := st.msgs ++ [text, text] }
      c.name (.activityOk c.args.destination))
  else if c.name == "search_shops" then
    let r := P.shops c.args
    .ok (pushPart { st with db := save_shop_to_db cid st.db r } c.name (.poi r))
  else if c.name == "search_leisure" then
    let r := P.leisure c.args
    match save_leisure_lookup with
    | some f => .ok (pushPart { st with db := f cid st.db r } c.name (.poi r))
    | none => .error attributeErrorMsg
  else
    .ok (pushPart st c.name st.tool_result)

/-- The whole dispatch loop over the batch of requested invocations; an
uncaught exception in a branch aborts the remainder of the turn. -/
def dispatchBatch (P : Providers) (cid : Nat) :
    List ToolCall → DispatchSt → Except String DispatchSt
  | [], st => .ok st
  | c :: rest, st =>
    match runCall P cid c st with
    | .error e => .error e
    | .ok st2 => dispatchBatch P cid rest st2

/-- The five tool names declared to the model (chat_agent.py lines 26-99)
and recognized by the dispatch chain. -/
def knownToolNames : List String :=
  ["search_hotels", "search_flights", "get_activity_recommendations",
   "search_shops", "search_leisure"]

/- ──────────────────────────── Theorems ──────────────────────────── -/

@[simp] theorem truthy_null : truthy Json.null = false := rfl

theorem stageChain_eq_firstMissing (b1 b2 b3 b4 b5 b6 b7 b8 b9 : Bool) :
    stageChain b1 b2 b3 b4 b5 b6 b7 b8 b9 =
      firstMissing [(b1, .NEED_DESTINATION), (b2, .NEED_ORIGIN),
        (b3, .NEED_TRAVELERS), (b4, .NEED_ACTIVITIES), (b5, .NEED_BUDGET),
        (b6, .NEED_BUDGET_ALLOCATION), (b7, .NEED_DATES),
        (b8, .NEED_FLEXIBILITY), (b9, .NEED_CONFIRMATION)] := by
  cases b1 <;> cases b2 <;> cases b3 <;> cases b4 <;> cases b5 <;> cases b6 <;>
    cases b7 <;> cases b8 <;> cases b9 <;> rfl

/-- C5: for every combination of slot presence, the stage `travel_chat`
selects is the one of the first missing slot in the fixed order
destination, origin, travelers, activities, budget, budget_allocation,
dates, flexibility, confirmation — `READY` when all are present; with only
destination and origin set the result is `NEED_TRAVELERS`. -/
theorem stage_first_missing_slot :
    (∀ c : Conv, travelChatStage c = firstMissing (slotChecklist c)) ∧
    travelChatStage { prefs := { destination := some (.str "Paris"),
                                 origin := some (.str "New York") } } =
      Stage.NEED_TRAVELERS := by
  constructor
  · intro c
    exact stageChain_eq_firstMissing _ _ _ _ _ _ _ _ _
  · rfl

/-- C9: in the itinerary projection handed to the model, a suggestion whose
stored price is `NULL` is rendered by `_format_suggestion` with price `-10`
(the `price` field of the formatted dict is always present and numeric). -/
theorem null_price_rendered_minus_ten (s : Suggestion) (h : s.price = none) :
    (format_suggestion s).price = -10 := by
  unfold format_suggestion
  rw [h]

theorem null_price_rendered_minus_ten_witness :
    (format_suggestion { id := 7, conversation_id := 1, type := "hotel",
                         title := some "Hotel Roma", price := none }).price = -10 :=
  null_price_rendered_minus_ten _ rfl

/-- C10: the `get_suggestions` endpoint converts `price` and `rating` with a
truthiness test, so a stored `0` comes back as `null`, indistinguishable
from an absent value. -/
theorem zero_price_rating_rendered_null (s : Suggestion) :
    (s.price = some 0 → (render_suggestion s).price = none) ∧
    (s.rating = some 0 → (render_suggestion s).rating = none) ∧
    render_suggestion { s with price := some 0, rating := some 0 } =
      render_suggestion { s with price := none, rating := none } := by
  refine ⟨fun h => ?_, fun h => ?_, ?_⟩
  · unfold render_suggestion
    rw [h]
    simp
  · unfold render_suggestion
    rw [h]
    simp
  · unfold render_suggestion
    simp

theorem zero_price_rating_rendered_null_witness :
    (render_suggestion { id := 3, conversation_id := 1, type := "hotel",
                         price := some 0, rating := some 0 }).price = none ∧
    (render_suggestion { id := 3, conversation_id := 1, type := "hotel",
                         price := some 0, rating := some 0 }).rating = none :=
  ⟨(zero_price_rating_rendered_null _).1 rfl,
   (zero_price_rating_rendered_null _).2.1 rfl⟩

/-- A conversation holding a single stored shop suggestion. -/
def shopRowCase : Suggestion :=
  { id := 1, conversation_id := 1, type := "shop", title := some "Central Market" }

/-- C1 (bug): `load_from_db` resets `stays`, `journey_to` and `journey_from`
but never resets `shops` (lines 36-38), so recomputing the projection a
second time without any intervening write duplicates every shop entry: with
one stored shop row, the first load yields one shop and the second yields
two, while the row set still contains one — the projection diverges from
the stored rows, contradicting the rebuild-from-scratch invariant. -/
theorem projection_reload_duplicates_shops :
    (load_from_db {} 1 [shopRowCase]
        (load_from_db {} 1 [shopRowCase] {})).shops.length = 2 ∧
    (load_from_db {} 1 [shopRowCase] {}).shops.length = 1 :=
  ⟨rfl, rfl⟩

/-- C2: during reload, a stored flight row is classified against the
conversation's origin/destination slots by case-insensitive substring
containment: origin-in-origin and destination-in-destination makes it the
outbound `journey_to`; the reverse containment makes it the inbound
`journey_from`; otherwise it becomes `journey_to` by default when no
outbound has been classified yet. -/
theorem flight_classification_rule (o d : String) (st : ItinState)
    (s : Suggestion) (ho : o ≠ "") (hd : d ≠ "") (ht : s.type = "flight") :
    (flightTo o d s = true →
      (loadStep { destination := some d, origin := some o } st s).journey_to =
        some (format_suggestion s)) ∧
    (flightTo o d s = false → flightFrom o d s = true →
      (loadStep { destination := some d, origin := some o } st s).journey_from =
        some (format_suggestion s)) ∧
    (flightTo o d s = false → flightFrom o d s = false →
      st.journey_to = none →
      (loadStep { destination := some d, origin := some o } st s).journey_to =
        some (format_suggestion s)) := by
  have hho : truthyStr (some o) = true := by simp [truthyStr, ho]
  have hhd : truthyStr (some d) = true := by simp [truthyStr, hd]
  refine ⟨fun hA => ?_, fun hA hB => ?_, fun hA hB hjt => ?_⟩
  · simp [loadStep, ht, hho, hhd, hA]
  · simp [loadStep, ht, hho, hhd, hA, hB]
  · simp [loadStep, ht, hho, hhd, hA, hB, hjt]

/-- A stored flight row from FCO to CDG. -/
def flightRowCase : Suggestion :=
  { id := 2, conversation_id := 1, type := "flight",
    location := { origin := some "FCO", destination := some "CDG" } }

theorem flight_classification_rule_witness :
    (loadStep { destination := some "Paris CDG", origin := some "Rome FCO" } {}
        flightRowCase).journey_to = some (format_suggestion flightRowCase) :=
  (flight_classification_rule "Rome FCO" "Paris CDG" {} flightRowCase
    (by decide) (by decide) rfl).1 (by decide)

theorem save_shop_inserts (cid : Nat) (db : List Suggestion) (d : ShopData)
    (n : String) (hn : d.name = some n) (hne : n ≠ "")
    (herr : truthyOptJson d.error = false)
    (hany : db.any (shopPred cid n) = false) :
    save_shop_to_db cid db (some d) =
      db ++ [{ id := db.length
               conversation_id := cid
               type := "shop"
               title := some n
               description := orTruthy d.full_address d.address_line2
               price := none
               rating := none
               image_url := none
               booking_url := d.website
               location := { address := d.full_address
                             lat := d.lat
                             lon := d.lon
                             phone := d.phone
                             opening_hours := d.opening_hours
                             city := d.city
                             postcode := d.postcode
                             street := d.street } }] := by
  simp [save_shop_to_db, herr, hn, hne, hany]

theorem save_shop_skips_existing (cid : Nat) (db : List Suggestion)
    (d : ShopData) (n : String) (hn : d.name = some n)
    (hany : db.any (shopPred cid n) = true) :
    save_shop_to_db cid db (some d) = db := by
  unfold save_shop_to_db
  dsimp only
  rw [hn]
  dsimp only
  split
  · rfl
  · split
    · rfl
    · simp [hany]

/-- C3: re-ingesting a shop record with the same title for the same
conversation leaves exactly one stored `shop` suggestion with that title
(the second insert is skipped by the dedup query), and a record without a
usable name — or no record at all — persists nothing and returns as a
no-op. -/
theorem shop_dedup_and_nameless_noop (cid : Nat) (db : List Suggestion)
    (d : ShopData) (n : String) :
    (d.name = some n → n ≠ "" → truthyOptJson d.error = false →
      countShop cid n db = 0 →
      countShop cid n
        (save_shop_to_db cid (save_shop_to_db cid db (some d)) (some d)) = 1) ∧
    (∀ d2 : ShopData, d2.name = none ∨ d2.name = some "" →
      save_shop_to_db cid db (some d2) = db) ∧
    save_shop_to_db cid db none = db := by
  refine ⟨fun hn hne herr hcount => ?_, fun d2 hd2 => ?_, rfl⟩
  · have hfilter : db.filter (shopPred cid n) = [] :=
      List.length_eq_zero.mp hcount
    have hany : db.any (shopPred cid n) = false := by
      rw [List.any_eq_false]
      intro x hx hpx
      have hmem : x ∈ db.filter (shopPred cid n) :=
        List.mem_filter.mpr ⟨hx, hpx⟩
      rw [hfilter] at hmem
      exact absurd hmem (List.not_mem_nil x)
    rw [save_shop_inserts cid db d n hn hne herr hany]
    have hpredrow : shopPred cid n
        { id := db.length
          conversation_id := cid
          type := "shop"
          title := some n
          description := orTruthy d.full_address d.address_line2
          price := none
          rating := none
          image_url := none
          booking_url := d.website
          location := { address := d.full_address
                        lat := d.lat
                        lon := d.lon
                        phone := d.phone
                        opening_hours := d.opening_hours
                        city := d.city
                        postcode := d.postcode
                        street := d.street } } = true := by
      simp [shopPred]
    rw [save_shop_skips_existing cid _ d n hn
      (by rw [List.any_append]; simp [hpredrow])]
    unfold countShop
    rw [List.filter_append]
    simp [hfilter, hpredrow]
  · rcases hd2 with h | h
    · unfold save_shop_to_db
      dsimp only
      rw [h]
      split <;> rfl
    · unfold save_shop_to_db
      dsimp only
      rw [h]
      split <;> simp

/-- The shop record of the spec's dedup example. -/
def shopRecordCase : ShopData :=
  { name := some "Central Market", city := some "Rome" }

theorem shop_dedup_and_nameless_noop_witness :
    countShop 1 "Central Market"
      (save_shop_to_db 1 (save_shop_to_db 1 [] (some shopRecordCase))
        (some shopRecordCase)) = 1 ∧
    save_shop_to_db 1 [] (some { city := some "Rome" }) = [] :=
  ⟨(shop_dedup_and_nameless_noop 1 [] shopRecordCase "Central Market").1
      rfl (by decide) rfl rfl,
   (shop_dedup_and_nameless_noop 1 [] shopRecordCase "Central Market").2.1
      { city := some "Rome" } (Or.inl rfl)⟩

@[simp] theorem stepOrigin_keep (x : List (String × Json)) (c : Conv) :
    (stepOrigin x c).prefs.destination = c.prefs.destination ∧
    (stepOrigin x c).prefs.number_of_travelers = c.prefs.number_of_travelers ∧
    (stepOrigin x c).prefs.weather_preference = c.prefs.weather_preference ∧
    (stepOrigin x c).prefs.activities = c.prefs.activities ∧
    (stepOrigin x c).prefs.budget = c.prefs.budget ∧
    (stepOrigin x c).prefs.budget_allocation = c.prefs.budget_allocation ∧
    (stepOrigin x c).prefs.arrival_date = c.prefs.arrival_date ∧
    (stepOrigin x c).prefs.departure_date = c.prefs.departure_date ∧
    (stepOrigin x c).prefs.date_flexibility = c.prefs.date_flexibility ∧
    (stepOrigin x c).prefs.confirmed = c.prefs.confirmed ∧
    (stepOrigin x c).destination = c.destination ∧
    (stepOrigin x c).budget = c.budget ∧
    (stepOrigin x c).start_date = c.start_date := by
  unfold stepOrigin
  by_cases h : truthy (jget x "origin") <;> simp [h]

@[simp] theorem stepDestination_keep (x : List (String × Json)) (c : Conv) :
    (stepDestination x c).prefs.origin = c.prefs.origin ∧
    (stepDestination x c).prefs.number_of_travelers = c.prefs.number_of_travelers ∧
    (stepDestination x c).prefs.weather_preference = c.prefs.weather_preference ∧
    (stepDestination x c).prefs.activities = c.prefs.activities ∧
    (stepDestination x c).prefs.budget = c.prefs.budget ∧
    (stepDestination x c).prefs.budget_allocation = c.prefs.budget_allocation ∧
    (stepDestination x c).prefs.arrival_date = c.prefs.arrival_date ∧
    (stepDestination x c).prefs.departure_date = c.prefs.departure_date ∧
    (stepDestination x c).prefs.date_flexibility = c.prefs.date_flexibility ∧
    (stepDestination x c).prefs.confirmed = c.prefs.confirmed ∧
    (stepDestination x c).budget = c.budget ∧
    (stepDestination x c).start_date = c.start_date := by
  unfold stepDestination
  by_cases h : truthy (jget x "destination") <;> simp [h]

@[simp] theorem stepTravelers_keep (x : List (String × Json)) (c : Conv) :
    (stepTravelers x c).prefs.origin = c.prefs.origin ∧
    (stepTravelers x c).prefs.destination = c.prefs.destination ∧
    (stepTravelers x c).prefs.weather_preference = c.prefs.weather_preference ∧
    (stepTravelers x c).prefs.activities = c.prefs.activities ∧
    (stepTravelers x c).prefs.budget = c.prefs.budget ∧
    (stepTravelers x c).prefs.budget_allocation = c.prefs.budget_allocation ∧
    (stepTravelers x c).prefs.arrival_date = c.prefs.arrival_date ∧
    (stepTravelers x c).prefs.departure_date = c.prefs.departure_date ∧
    (stepTravelers x c).prefs.date_flexibility = c.prefs.date_flexibility ∧
    (stepTravelers x c).prefs.confirmed = c.prefs.confirmed ∧
    (stepTravelers x c).destination = c.destination ∧
    (stepTravelers x c).budget = c.budget ∧
    (stepTravelers x c).start_date = c.start_date := by
  unfold stepTravelers
  by_cases h : truthy (jget x "number_of_travelers") <;> simp [h]

@[simp] theorem stepWeather_keep (x : List (String × Json)) (c : Conv) :
    (stepWeather x c).prefs.origin = c.prefs.origin ∧
    (stepWeather x c).prefs.destination = c.prefs.destination ∧
    (stepWeather x c).prefs.number_of_travelers = c.prefs.number_of_travelers ∧
    (stepWeather x c).prefs.activities = c.prefs.activities ∧
    (stepWeather x c).prefs.budget = c.prefs.budget ∧
    (stepWeather x c).prefs.budget_allocation = c.prefs.budget_allocation ∧
    (stepWeather x c).prefs.arrival_date = c.prefs.arrival_date ∧
    (stepWeather x c).prefs.departure_date = c.prefs.departure_date ∧
    (stepWeather x c).prefs.date_flexibility = c.prefs.date_flexibility ∧
    (stepWeather x c).prefs.confirmed = c.prefs.confirmed ∧
    (stepWeather x c).destination = c.destination ∧
    (stepWeather x c).budget = c.budget ∧
    (stepWeather x c).start_date = c.start_date := by
  unfold stepWeather
  by_cases h : truthy (jget x "weather_preference") <;> simp [h]

@[simp] theorem stepActivities_keep (x : List (String × Json)) (c : Conv) :
    (stepActivities x c).prefs.origin = c.prefs.origin ∧
    (stepActivities x c).prefs.destination = c.prefs.destination ∧
    (stepActivities x c).prefs.number_of_travelers = c.prefs.number_of_travelers ∧
    (stepActivities x c).prefs.weather_preference = c.prefs.weather_preference ∧
    (stepActivities x c).prefs.budget = c.prefs.budget ∧
    (stepActivities x c).prefs.budget_allocation = c.prefs.budget_allocation ∧
    (stepActivities x c).prefs.arrival_date = c.prefs.arrival_date ∧
    (stepActivities x c).prefs.departure_date = c.prefs.departure_date ∧
    (stepActivities x c).prefs.date_flexibility = c.prefs.date_flexibility ∧
    (stepActivities x c).prefs.confirmed = c.prefs.confirmed ∧
    (stepActivities x c).destination = c.destination ∧
    (stepActivities x c).budget = c.budget ∧
    (stepActivities x c).start_date = c.start_date := by
  unfold stepActivities
  by_cases h : truthy (jget x "activities") <;> simp [h]

@[simp] theorem stepBudget_keep (x : List (String × Json)) (c : Conv) :
    (stepBudget x c).prefs.origin = c.prefs.origin ∧
    (stepBudget x c).prefs.destination = c.prefs.destination ∧
    (stepBudget x c).prefs.number_of_travelers = c.prefs.number_of_travelers ∧
    (stepBudget x c).prefs.weather_preference = c.prefs.weather_preference ∧
    (stepBudget x c).prefs.activities = c.prefs.activities ∧
    (stepBudget x c).prefs.budget_allocation = c.prefs.budget_allocation ∧
    (stepBudget x c).prefs.arrival_date = c.prefs.arrival_date ∧
    (stepBudget x c).prefs.departure_date = c.prefs.departure_date ∧
    (stepBudget x c).prefs.date_flexibility = c.prefs.date_flexibility ∧
    (stepBudget x c).prefs.confirmed = c.prefs.confirmed ∧
    (stepBudget x c).destination = c.destination ∧
    (stepBudget x c).start_date = c.start_date := by
  unfold stepBudget
  by_cases h : truthy (jget x "budget") <;> simp [h]

@[simp] theorem stepAllocation_keep (x : List (String × Json)) (c : Conv) :
    (stepAllocation x c).prefs.origin = c.prefs.origin ∧
    (stepAllocation x c).prefs.destination = c.prefs.destination ∧
    (stepAllocation x c).prefs.number_of_travelers = c.prefs.number_of_travelers ∧
    (stepAllocation x c).prefs.weather_preference = c.prefs.weather_preference ∧
    (stepAllocation x c).prefs.activities = c.prefs.activities ∧
    (stepAllocation x c).prefs.budget = c.prefs.budget ∧
    (stepAllocation x c).prefs.arrival_date = c.prefs.arrival_date ∧
    (stepAllocation x c).prefs.departure_date = c.prefs.departure_date ∧
    (stepAllocation x c).prefs.date_flexibility = c.prefs.date_flexibility ∧
    (stepAllocation x c).prefs.confirmed = c.prefs.confirmed ∧
    (stepAllocation x c).destination = c.destination ∧
    (stepAllocation x c).budget = c.budget ∧
    (stepAllocation x c).start_date = c.start_date := by
  unfold stepAllocation
  by_cases h : truthy (jget x "budget_allocation") <;> simp [h]

@[simp] theorem stepArrival_keep (x : List (String × Json)) (c : Conv) :
    (stepArrival x c).prefs.origin = c.prefs.origin ∧
    (stepArrival x c).prefs.destination = c.prefs.destination ∧
    (stepArrival x c).prefs.number_of_travelers = c.prefs.number_of_travelers ∧
    (stepArrival x c).prefs.weather_preference = c.prefs.weather_preference ∧
    (stepArrival x c).prefs.activities = c.prefs.activities ∧
    (stepArrival x c).prefs.budget = c.prefs.budget ∧
    (stepArrival x c).prefs.budget_allocation = c.prefs.budget_allocation ∧
    (stepArrival x c).prefs.departure_date = c.prefs.departure_date ∧
    (stepArrival x c).prefs.date_flexibility = c.prefs.date_flexibility ∧
    (stepArrival x c).prefs.confirmed = c.prefs.confirmed ∧
    (stepArrival x c).destination = c.destination ∧
    (stepArrival x c).budget = c.budget := by
  unfold stepArrival
  by_cases h : truthy (jget x "arrival_date") <;> simp [h]

@[simp] theorem stepDeparture_keep (x : List (String × Json)) (c : Conv) :
    (stepDeparture x c).prefs.origin = c.prefs.origin ∧
    (stepDeparture x c).prefs.destination = c.prefs.destination ∧
    (stepDeparture x c).prefs.number_of_travelers = c.prefs.number_of_travelers ∧
    (stepDeparture x c).prefs.weather_preference = c.prefs.weather_preference ∧
    (stepDeparture x c).prefs.activities = c.prefs.activities ∧
    (stepDeparture x c).prefs.budget = c.prefs.budget ∧
    (stepDeparture x c).prefs.budget_allocation = c.prefs.budget_allocation ∧
    (stepDeparture x c).prefs.arrival_date = c.prefs.arrival_date ∧
    (stepDeparture x c).prefs.date_flexibility = c.prefs.date_flexibility ∧
    (stepDeparture x c).prefs.confirmed = c.prefs.confirmed ∧
    (stepDeparture x c).destination = c.destination ∧
    (stepDeparture x c).budget = c.budget ∧
    (stepDeparture x c).start_date = c.start_date := by
  unfold stepDeparture
  by_cases h : truthy (jget x "departure_date") <;> simp [h]

@[simp] theorem stepFlexibility_keep (x : List (String × Json)) (c : Conv) :
    (stepFlexibility x c).prefs.origin = c.prefs.origin ∧
    (stepFlexibility x c).prefs.destination = c.prefs.destination ∧
    (stepFlexibility x c).prefs.number_of_travelers = c.prefs.number_of_travelers ∧
    (stepFlexibility x c).prefs.weather_preference = c.prefs.weather_preference ∧
    (stepFlexibility x c).prefs.activities = c.prefs.activities ∧
    (stepFlexibility x c).prefs.budget = c.prefs.budget ∧
    (stepFlexibility x c).prefs.budget_allocation = c.prefs.budget_allocation ∧
    (stepFlexibility x c).prefs.arrival_date = c.prefs.arrival_date ∧
    (stepFlexibility x c).prefs.departure_date = c.prefs.departure_date ∧
    (stepFlexibility x c).prefs.confirmed = c.prefs.confirmed ∧
    (stepFlexibility x c).destination = c.destination ∧
    (stepFlexibility x c).budget = c.budget ∧
    (stepFlexibility x c).start_date = c.start_date := by
  unfold stepFlexibility
  by_cases h : truthy (jget x "date_flexibility") <;> simp [h]

@[simp] theorem stepConfirmed_keep (x : List (String × Json)) (c : Conv) :
    (stepConfirmed x c).prefs.origin = c.prefs.origin ∧
    (stepConfirmed x c).prefs.destination = c.prefs.destination ∧
    (stepConfirmed x c).prefs.number_of_travelers = c.prefs.number_of_travelers ∧
    (stepConfirmed x c).prefs.weather_preference = c.prefs.weather_preference ∧
    (stepConfirmed x c).prefs.activities = c.prefs.activities ∧
    (stepConfirmed x c).prefs.budget = c.prefs.budget ∧
    (stepConfirmed x c).prefs.budget_allocation = c.prefs.budget_allocation ∧
    (stepConfirmed x c).prefs.arrival_date = c.prefs.arrival_date ∧
    (stepConfirmed x c).prefs.departure_date = c.prefs.departure_date ∧
    (stepConfirmed x c).prefs.date_flexibility = c.prefs.date_flexibility ∧
    (stepConfirmed x c).destination = c.destination ∧
    (stepConfirmed x c).budget = c.budget ∧
    (stepConfirmed x c).start_date = c.start_date := by
  unfold stepConfirmed
  by_cases h : truthy (jget x "confirmed") <;> simp [h]

/-- C6: applying an extracted payload changes only the slots that are
present and non-null in it — a null (or absent) field never overwrites a
previously set value, and every other slot and its denormalized
`Conversation` column stay unchanged; applying
`destination: null, budget: "2000"` onto a conversation with destination
`"Rome"` keeps `"Rome"` and sets the budget. -/
theorem slot_merge_null_never_overwrites (x : List (String × Json)) (c : Conv) :
    (jget x "origin" = .null →
      (applyExtracted x c).prefs.origin = c.prefs.origin) ∧
    (jget x "destination" = .null →
      (applyExtracted x c).prefs.destination = c.prefs.destination ∧
      (applyExtracted x c).destination = c.destination) ∧
    (jget x "number_of_travelers" = .null →
      (applyExtracted x c).prefs.number_of_travelers = c.prefs.number_of_travelers) ∧
    (jget x "weather_preference" = .null →
      (applyExtracted x c).prefs.weather_preference = c.prefs.weather_preference) ∧
    (jget x "activities" = .null →
      (applyExtracted x c).prefs.activities = c.prefs.activities) ∧
    (jget x "budget" = .null →
      (applyExtracted x c).prefs.budget = c.prefs.budget ∧
      (applyExtracted x c).budget = c.budget) ∧
    (jget x "budget_allocation" = .null →
      (applyExtracted x c).prefs.budget_allocation = c.prefs.budget_allocation) ∧
    (jget x "arrival_date" = .null →
      (applyExtracted x c).prefs.arrival_date = c.prefs.arrival_date ∧
      (applyExtracted x c).start_date = c.start_date) ∧
    (jget x "departure_date" = .null →
      (applyExtracted x c).prefs.departure_date = c.prefs.departure_date) ∧
    (jget x "date_flexibility" = .null →
      (applyExtracted x c).prefs.date_flexibility = c.prefs.date_flexibility) ∧
    (jget x "confirmed" = .null →
      (applyExtracted x c).prefs.confirmed = c.prefs.confirmed) ∧
    applyExtracted [("destination", Json.null), ("budget", Json.str "2000")]
        { prefs := { destination := some (.str "Rome") } } =
      { prefs := { destination := some (.str "Rome"),
                   budget := some (.str "2000") },
        budget := some (.str "2000") } := by
  refine ⟨fun h => ?_, fun h => ?_, fun h => ?_, fun h => ?_, fun h => ?_,
    fun h => ?_, fun h => ?_, fun h => ?_, fun h => ?_, fun h => ?_,
    fun h => ?_, ?_⟩
  · simp [applyExtracted, stepOrigin, h]
  · simp [applyExtracted, stepDestination, h]
  · simp [applyExtracted, stepTravelers, h]
  · simp [applyExtracted, stepWeather, h]
  · simp [applyExtracted, stepActivities, h]
  · simp [applyExtracted, stepBudget, h]
  · simp [applyExtracted, stepAllocation, h]
  · simp [applyExtracted, stepArrival, h]
  · simp [applyExtracted, stepDeparture, h]
  · simp [applyExtracted, stepFlexibility, h]
  · simp [applyExtracted, stepConfirmed, h]
  · rfl

theorem slot_merge_null_never_overwrites_witness :
    (applyExtracted [("destination", Json.null), ("budget", Json.str "2000")]
        { prefs := { destination := some (.str "Rome") } }).prefs.destination =
      some (Json.str "Rome") ∧
    (applyExtracted [("destination", Json.null), ("budget", Json.str "2000")]
        { prefs := { destination := some (.str "Rome") } }).destination = none :=
  ⟨((slot_merge_null_never_overwrites
      [("destination", Json.null), ("budget", Json.str "2000")]
      { prefs := { destination := some (.str "Rome") } }).2.1 rfl).1,
   ((slot_merge_null_never_overwrites
      [("destination", Json.null), ("budget", Json.str "2000")]
      { prefs := { destination := some (.str "Rome") } }).2.1 rfl).2⟩

theorem applyExtracted_nil (c : Conv) : applyExtracted [] c = c := by
  simp [applyExtracted, stepOrigin, stepDestination, stepTravelers,
    stepWeather, stepActivities, stepBudget, stepAllocation, stepArrival,
    stepDeparture, stepFlexibility, stepConfirmed, jget]

/-- C7 counterexample: a reply whose sentinel payload does not parse is
returned verbatim — the sentinel block is NOT stripped, because the
`re.sub` stripping runs inside the `try` only after `json.loads`
succeeds. -/
theorem malformed_payload_not_stripped_cex :
    (extractAndStrip "Hi |||EXTRACT|||oops|||END||| there").1 =
      "Hi |||EXTRACT|||oops|||END||| there" ∧
    listHas sentinelStart
      (extractAndStrip "Hi |||EXTRACT|||oops|||END||| there").1.toList = true := by
  exact ⟨rfl, rfl⟩

/-- C7 (amended): a malformed (unparseable) sentinel payload is discarded
without failing the turn and the prior slot state is unchanged, but the
reply is returned with the sentinel block still in it; only a payload that
parses is stripped from the reply (every block removed, then `strip()`). -/
theorem malformed_payload_discarded_amended :
    (∀ (ai : String) (pre inner post : List Char) (c : Conv),
      splitBlock ai.toList = some (pre, inner, post) →
      jsonParse (prepPayload inner) = none →
      extractAndStrip ai = (ai, Json.obj []) ∧
      applyPayload (extractAndStrip ai).2 c = some c) ∧
    (∀ (ai : String) (pre inner post : List Char) (v : Json),
      splitBlock ai.toList = some (pre, inner, post) →
      jsonParse (prepPayload inner) = some v →
      (extractAndStrip ai).1 =
        String.mk (pyStrip (removeBlocks ai.toList.length ai.toList)) ∧
      (extractAndStrip ai).2 = v) := by
  constructor
  · intro ai pre inner post c hsplit hfail
    have h1 : extractAndStrip ai = (ai, Json.obj []) := by
      unfold extractAndStrip
      rw [hsplit]
      dsimp only
      rw [hfail]
    refine ⟨h1, ?_⟩
    rw [h1]
    show applyPayload (Json.obj []) c = some c
    unfold applyPayload
    dsimp only
    rw [applyExtracted_nil]
  · intro ai pre inner post v hsplit hok
    unfold extractAndStrip
    rw [hsplit]
    dsimp only
    rw [hok]
    exact ⟨rfl, rfl⟩

theorem malformed_payload_discarded_amended_witness :
    extractAndStrip "Hi |||EXTRACT|||oops|||END||| there" =
      ("Hi |||EXTRACT|||oops|||END||| there", Json.obj []) ∧
    applyPayload
      (extractAndStrip "Hi |||EXTRACT|||oops|||END||| there").2 {} = some {} :=
  malformed_payload_discarded_amended.1
    "Hi |||EXTRACT|||oops|||END||| there"
    "Hi ".toList "oops".toList " there".toList {} rfl rfl

/-- Concrete stub providers (the external collaborators of §4.3) used to
evaluate the dispatch loop at concrete inputs. -/
def stubProviders : Providers :=
  { hotels := fun _ => none
    flights := fun _ => .ok none
    shops := fun _ => none
    leisure := fun _ => none
    activityRec := fun _ => "itinerary" }

/-- C4 (bug): a `search_leisure` invocation reaches
`self.IteneraryManager._save_leisure_to_db(tool_result)`, an attribute the
class never defines, so the turn raises `AttributeError` and no suggestion
of type `leisure` is ever persisted — leisure ingestion does not behave
like shop ingestion at all. -/
theorem leisure_ingestion_attribute_error :
    dispatchBatch stubProviders 1 [{ name := "search_leisure" }] {} =
      .error attributeErrorMsg := rfl

/-- C8 counterexample: a batch whose second entry names an unknown tool
completes, but the entry's function response is the stale result of the
previous invocation, with no result tagged `unknown_tool` anywhere. -/
theorem unknown_tool_no_tagged_error_cex :
    dispatchBatch stubProviders 1
        [{ name := "search_shops" }, { name := "frobnicate" }] {} =
      .ok { tool_result := .poi none,
            parts := [("search_shops", .poi none),
                      ("frobnicate", .poi none)] } ∧
    mentionsUnknownTool (.poi none) = false := by
  exact ⟨rfl, rfl⟩

/-- C8 (amended): an entry whose tool name is unknown does not abort the
batch — the remaining invocations still execute — but no `unknown_tool`
error result is produced for it: the loop falls through every branch and
appends the stale `tool_result` of the previous invocation as that entry's
response. -/
theorem unknown_tool_stale_result_amended (P : Providers) (cid : Nat)
    (st : DispatchSt) (c : ToolCall) (rest : List ToolCall)
    (h : c.name ∉ knownToolNames) :
    dispatchBatch P cid (c :: rest) st =
      dispatchBatch P cid rest
        { st with tool_result := st.tool_result,
                  parts := st.parts ++ [(c.name, st.tool_result)] } := by
  simp only [knownToolNames, List.mem_cons, List.mem_singleton,
    List.not_mem_nil, or_false] at h
  push_neg at h
  obtain ⟨h1, h2, h3, h4, h5⟩ := h
  simp only [dispatchBatch]
  simp [runCall, pushPart, h1, h2, h3, h4, h5]

theorem unknown_tool_stale_result_amended_witness :
    dispatchBatch stubProviders 1 [{ name := "frobnicate" }] {} =
      dispatchBatch stubProviders 1 []
        { tool_result := ToolRes.poi none,
          parts := [("frobnicate", ToolRes.poi none)] } :=
  unknown_tool_stale_result_amended stubProviders 1 {} { name := "frobnicate" }
    [] (by decide)
